import Mathlib

/-!
Shallow embedding of `packages/config/src/utils.ts` (and its earlier
revision) of graphql-mesh: the convention-based extension resolver
(`getPackage`), the return-data extractor (`resolveReturnData`) and the
resolver synthesizer (`resolveAdditionalResolvers`).

JavaScript runtime values are modelled by the inductive `Value`; external
collaborators (the `param-case` normalizer, `path.resolve`, the module
loader, the string interpolator, the delegation-engine primitives from
`@graphql-tools/delegate`) are parameters of the embedded functions, as the
source only consumes their interfaces.
-/

namespace Mesh

/-- Model of a JavaScript runtime value as far as the source inspects one:
`undefined`, `null`, booleans, numbers, strings, arrays, plain objects
(ordered field lists), `Error` instances and `GraphQLError` instances
(which extend `Error` and carry an `originalError`). -/
inductive Value where
  | vUndefined : Value
  | vNull : Value
  | vBool (b : Bool) : Value
  | vNum (n : Int) : Value
  | vStr (s : String) : Value
  | vArr (elems : List Value) : Value
  | vObj (fields : List (String × Value)) : Value
  | vError (msg : String) : Value
  | vGraphQLError (originalError : Value) (msg : String) : Value

open Value

/-- JavaScript truthiness: `undefined`, `null`, `false`, `0` and the empty
string are falsy; every object, array, error and nonempty primitive is
truthy. -/
def jsTruthy : Value → Bool
  | vUndefined => false
  | vNull => false
  | vBool b => b
  | vNum n => n != 0
  | vStr s => s != ""
  | _ => true

/-- `v instanceof Error` for the modelled values: both plain `Error`s and
`GraphQLError`s (which subclass `Error`) are instances. -/
def isErrorInstance : Value → Bool
  | vError _ => true
  | vGraphQLError _ _ => true
  | _ => false

/-- `error instanceof GraphQLError` (the `isGraphQLError` helper of the
source). -/
def isGraphQLErrorB : Value → Bool
  | vGraphQLError _ _ => true
  | _ => false

/-- The `originalError` property of a `GraphQLError`; `undefined` on any
other value. -/
def originalErrorOf : Value → Value
  | vGraphQLError o _ => o
  | _ => vUndefined

/-- `Array.isArray`. -/
def isArrayV : Value → Bool
  | vArr _ => true
  | _ => false

/-- `typeof v === 'object'`: objects, arrays, `null` and error instances. -/
def typeofObject : Value → Bool
  | vObj _ => true
  | vArr _ => true
  | vNull => true
  | vError _ => true
  | vGraphQLError _ _ => true
  | _ => false

/-- Property access `v[k]` on the modelled values: field lookup on an
object, `undefined` everywhere else. -/
def jsProp (v : Value) (k : String) : Value :=
  match v with
  | vObj fields => (fields.lookup k).getD vUndefined
  | _ => vUndefined

/-- One step of lodash `get`: an object field, or an array element when the
segment is a numeric index; `undefined` otherwise. -/
def getSegment (v : Value) (seg : String) : Value :=
  match v with
  | vObj fields => (fields.lookup seg).getD vUndefined
  | vArr elems =>
    match seg.toNat? with
    | some i => (elems.get? i).getD vUndefined
    | none => vUndefined
  | _ => vUndefined

/-- Split a character list at every dot, accumulating the current segment
in reverse. -/
def splitPathAux : List Char → List Char → List String
  | acc, [] => [String.mk acc.reverse]
  | acc, c :: rest =>
    if c == '.' then String.mk acc.reverse :: splitPathAux [] rest
    else splitPathAux (c :: acc) rest

/-- Split a dotted path string into its segments. -/
def splitPath (s : String) : List String := splitPathAux [] s.data

/-- lodash `get(source, path)` with a dotted string path: traverse segment
by segment, missing intermediate keys yielding `undefined`. -/
def jsGetPath (v : Value) (path : String) : Value :=
  (splitPath path).foldl getSegment v

/-- Replace (or append) the binding of `k` in an association list. -/
def setAssoc : List (String × Value) → String → Value → List (String × Value)
  | [], k, nv => [(k, nv)]
  | (k', v') :: rest, k, nv =>
    if k' == k then (k', nv) :: rest else (k', v') :: setAssoc rest k nv

/-- Set a single field on an object value; any non-object is left
unchanged. -/
def setField (v : Value) (k : String) (nv : Value) : Value :=
  match v with
  | vObj fields => vObj (setAssoc fields k nv)
  | _ => v

/-- lodash `set(object, path, value)` over the split path segments:
intermediate segments that are not already object-like are replaced by
fresh empty objects. -/
def jsSetSegs : Value → List String → Value → Value
  | _, [], nv => nv
  | v, s :: rest, nv =>
    match rest with
    | [] => setField v s nv
    | _ =>
      let child := getSegment v s
      let base :=
        match child with
        | vObj fs => vObj fs
        | vArr es => vArr es
        | _ => vObj []
      setField v s (jsSetSegs base rest nv)

/-- lodash `castArray`: an array is kept, any other value is wrapped into a
one-element array. -/
def castArray : Value → List Value
  | vArr elems => elems
  | v => [v]

/-- lodash `head` applied to a JS array: the first element, or `undefined`
for the empty array. -/
def headJS : List Value → Value
  | [] => vUndefined
  | v :: _ => v

/-- JavaScript `a || b`: `a` when truthy, else `b`. -/
def jsOr (a b : Value) : Value := if jsTruthy a then a else b

/-- The GraphQL output-type shapes the source touches: named types, list
types and non-null wrappers. -/
inductive GQLType where
  | named (n : String) : GQLType
  | list (ofType : GQLType) : GQLType
  | nonNull (ofType : GQLType) : GQLType

/-- graphql-js `getNullableType`: strip a non-null wrapper. -/
def getNullableType : GQLType → GQLType
  | GQLType.nonNull t => t
  | t => t

/-- JavaScript property access `type.ofType`: defined on list and non-null
wrappers, `undefined` (modelled as `none`) on named types. -/
def ofTypeJS : GQLType → Option GQLType
  | GQLType.list t => some t
  | GQLType.nonNull t => some t
  | GQLType.named _ => none

/-- The slice of GraphQL `info` the source reads: the response key (via
`getResponseKeyFromInfo`) and the field's declared return type. -/
structure Info where
  responseKey : String
  returnType : GQLType

/-- `getResponseKeyFromInfo` of `@graphql-tools/utils` (external): the
response key recorded in the field info. -/
def getResponseKeyFromInfo (i : Info) : String := i.responseKey

/-- The options object passed as second argument to a target-API method:
`{ selectedFields, selectionSet, depth }`. -/
structure CallOptions where
  selectedFields : Option Value
  selectionSet : Option String
  depth : Option Nat

/-- The slice of the execution context the source reads: the per-source API
clients, as `context[targetSource].api[targetMethod](args, options)`. -/
structure Ctx where
  api : String → String → Value → CallOptions → Value

/-- The delegation-engine primitives consumed from
`@graphql-tools/delegate` (external collaborators, specified only through
their interfaces): the external-object tag probe, the unpathed errors and
orginating-subschema accessors, and `resolveExternalValue`. Sub-schemas are
identified by an opaque string. -/
structure DelegationEngine where
  isExternalObject : Value → Bool
  getUnpathedErrors : Value → List Value
  getSubschema : Value → String → String
  resolveExternalValue :
    Value → List Value → String → Ctx → Info → Option GQLType → Option Bool → Value

/-- Truthiness of the `returnData` extraction path (`!args.returnData` in
the source): absent or empty-string paths are falsy. -/
def truthyPath : Option String → Bool
  | none => false
  | some s => s != ""

/-- `resolveReturnData` (utils.ts lines 188-199; the earlier revision is
the same function called with the last two arguments absent). The resolver
`args` object is consulted only through its `returnData` field, so it is
collapsed to that field here; `returnType` and `skipTypeMerging` model the
variadic `...rest` of the extended revision. -/
def resolveReturnData (eng : DelegationEngine) (source : Value)
    (returnData : Option String) (context : Ctx) (info : Info)
    (returnType : Option GQLType) (skipTypeMerging : Option Bool) : Value :=
  let result :=
    if isErrorInstance source || !(truthyPath returnData) then source
    else jsGetPath source (returnData.getD "")
  if isGraphQLErrorB result then originalErrorOf result
  else if eng.isExternalObject result || !(eng.isExternalObject source) then result
  else
    eng.resolveExternalValue result (eng.getUnpathedErrors source)
      (eng.getSubschema source (getResponseKeyFromInfo info)) context info
      returnType skipTypeMerging

/-- The single-quote character, used inside Node's module-not-found message
`Cannot find module '<name>'`. -/
def squote : String := String.singleton '\''

/-- Check whether `pat` occurs as a contiguous run inside a character
list. -/
def includesAux (pat : List Char) : List Char → Bool
  | [] => pat.isEmpty
  | c :: rest => pat.isPrefixOf (c :: rest) || includesAux pat rest

/-- JavaScript `s.includes(pat)`: substring containment. -/
def jsIncludes (s pat : String) : Bool := includesAux pat.data s.data

/-- The export picked from a successfully loaded candidate module:
`exported.default || exported.parser || exported` (utils.ts line 46). -/
def pickExport (exported : Value) : Value :=
  jsOr (jsProp exported "default") (jsOr (jsProp exported "parser") exported)

/-- The module-not-found test of `getPackage`'s catch block: the error
message mentions `Cannot find module '<candidate>'` or
`Could not locate module`. -/
def notFoundSignal (moduleName msg : String) : Bool :=
  jsIncludes msg ("Cannot find module " ++ squote ++ moduleName ++ squote) ||
    jsIncludes msg "Could not locate module"

/-- The candidate-module list of `getPackage` (utils.ts lines 26-40). The
`param-case` normalizer `pc` and `path.resolve(process.cwd(), -)` written
`cwdResolve` are external collaborators passed as parameters. -/
def possibleModules (pc : String → String) (cwdResolve : String → String)
    (name ty : String) : List String :=
  let casedName := pc name
  let casedType := pc ty
  let possibleNames :=
    ["@graphql-mesh/" ++ casedName,
     "@graphql-mesh/" ++ casedName ++ "-" ++ casedType,
     "@graphql-mesh/" ++ casedType ++ "-" ++ casedName,
     casedName,
     casedName ++ "-" ++ casedType,
     casedType ++ "-" ++ casedName,
     casedType]
  let possibleNames :=
    if jsIncludes name "-" then possibleNames ++ [name] else possibleNames
  possibleNames ++ [cwdResolve name]

/-- The candidate loop of `getPackage` (utils.ts lines 42-57): try each
candidate in order; a successful load returns its picked export; a
module-not-found failure is swallowed and the loop continues; any other
failure aborts with the wrapped load error; exhaustion yields the
not-found error. The module loader is modelled as
`String → Except String Value`, the error carrying `err.message`. -/
def getPackageGo (importFn : String → Except String Value) (name ty : String) :
    List String → Except String Value
  | [] => Except.error ("Unable to find " ++ ty ++ " matching " ++ name)
  | moduleName :: rest =>
    match importFn moduleName with
    | Except.ok exported => Except.ok (pickExport exported)
    | Except.error msg =>
      if !(notFoundSignal moduleName msg) then
        Except.error ("Unable to load " ++ ty ++ " matching " ++ name ++ ": " ++ msg)
      else getPackageGo importFn name ty rest

/-- `getPackage` (utils.ts lines 25-58). -/
def getPackage (pc : String → String) (cwdResolve : String → String)
    (name ty : String) (importFn : String → Except String Value) :
    Except String Value :=
  getPackageGo importFn name ty (possibleModules pc cwdResolve name ty)

/-- Whether a candidate fails with the swallowed module-not-found signal
under a given loader. -/
def notFoundAt (importFn : String → Except String Value) (m : String) : Bool :=
  match importFn m with
  | Except.ok _ => false
  | Except.error msg => notFoundSignal m msg

/-- The per-invocation resolver context `{ root, args, context, info }`. -/
structure ResolverData where
  root : Value
  args : Value
  context : Ctx
  info : Info

/-- The interpolator `stringInterpolator.parse` (external collaborator):
template string and resolver context to value. -/
abbrev Interp : Type := String → ResolverData → Value

/-- The `args` field of a method-call descriptor: either a mapping from
dotted-path strings to template strings, or a function of the resolver
context (the extended revision's `ArgsConfig`). -/
inductive ArgsConfig where
  | fn (f : ResolverData → Value) : ArgsConfig
  | mapping (entries : List (String × String)) : ArgsConfig

/-- `normalizeMethodArgs` (utils.ts lines 175-181): a function config is
invoked on the resolver context; a static mapping is lodash-`reduce`d with
`set(object, path, interpolate(template))` starting from an empty
object. -/
def normalizeMethodArgs (interp : Interp) (cfg : ArgsConfig)
    (rd : ResolverData) : Value :=
  match cfg with
  | ArgsConfig.fn f => f rd
  | ArgsConfig.mapping entries =>
    entries.foldl
      (fun obj pt => jsSetSegs obj (splitPath pt.1) (interp pt.2 rd))
      (vObj [])

/-- A method-call ("additional stitching resolver") descriptor. -/
structure MethodCallDescriptor where
  type : String
  field : String
  targetSource : String
  targetMethod : String
  args : ArgsConfig
  resultSelectedFields : Option Value
  resultSelectionSet : Option String
  resultDepth : Option Nat
  returnData : Option String
  requiredSelectionSet : Option String

/-- The single call-out to a backend client:
`context[targetSource].api[targetMethod](methodArgs, { selectedFields,
selectionSet, depth })` (utils.ts lines 148-155). -/
def apiCall (d : MethodCallDescriptor) (ctx : Ctx) (methodArgs : Value) : Value :=
  ctx.api d.targetSource d.targetMethod methodArgs
    ⟨d.resultSelectedFields, d.resultSelectionSet, d.resultDepth⟩

/-- The body mapped over `castArray(methodArgs)` (utils.ts lines 147-158):
issue the backend call, map an `Error` result to `null`, otherwise extract
through `resolveReturnData` with the computed return type. -/
def perElementCall (eng : DelegationEngine) (d : MethodCallDescriptor)
    (ctx : Ctx) (info : Info) (returnType : Option GQLType) (ma : Value) : Value :=
  let result := apiCall d ctx ma
  if isErrorInstance result then vNull
  else resolveReturnData eng result d.returnData ctx info returnType none

/-- The synthesized `resolve` function of a method-call descriptor
(utils.ts lines 139-162): normalize the arguments, compute the expected
per-element output type (`outputType.ofType` for an array fan-out), issue
one backend call per `castArray` element, and return the array of results
for an array argument or the head result for a scalar one. -/
def methodCallResolve (eng : DelegationEngine) (interp : Interp)
    (d : MethodCallDescriptor) (root args : Value) (ctx : Ctx) (info : Info) :
    Value :=
  let rd : ResolverData := ⟨root, args, ctx, info⟩
  let methodArgs := normalizeMethodArgs interp d.args rd
  let outputType := getNullableType info.returnType
  let returnType :=
    if isArrayV methodArgs then ofTypeJS outputType else some outputType
  let results := (castArray methodArgs).map (perElementCall eng d ctx info returnType)
  if isArrayV methodArgs then vArr results else headJS results

/-- A subscription descriptor. -/
structure SubscriptionDescriptor where
  type : String
  field : String
  pubsubTopic : String
  filterBy : Option String
  returnData : Option String

/-- One entry of a resolver map: either plain data contributed by a loaded
resolver file, or a synthesized field resolver. The subscription entry
keeps its descriptor together with its `resolve` closure; its `subscribe`
side (pub/sub iterator plus `eval`-based filter) is an external effectful
collaborator no claim inspects. -/
inductive ResolverEntry where
  | plain (v : Value) : ResolverEntry
  | subscriptionField (d : SubscriptionDescriptor)
      (resolveFn : Value → Value → Ctx → Info → Value) : ResolverEntry
  | methodField (selectionSet : Option String)
      (resolveFn : Value → Value → Ctx → Info → Value) : ResolverEntry

/-- A resolver map, observed through its lookup interface: type name, then
field name, to an entry. -/
abbrev RMap : Type := String → String → Option ResolverEntry

/-- Lookup in a resolver map. -/
def rmapLookup (m : RMap) (ty f : String) : Option ResolverEntry := m ty f

/-- The resolver map contributing exactly one entry at `[ty][f]`. -/
def singletonRMap (ty f : String) (e : ResolverEntry) : RMap :=
  fun ty' f' => if ty' == ty && f' == f then some e else none

/-- View a plain exported value as a resolver-map contribution. -/
def valueToRMap (v : Value) : RMap :=
  fun ty f =>
    match v with
    | vObj tys =>
      match tys.lookup ty with
      | some (vObj fs) => (fs.lookup f).map ResolverEntry.plain
      | _ => none
    | _ => none

/-- The export probing of a string (file-path) descriptor (utils.ts lines
93-111): `exported.default.resolvers` when the default export is truthy and
has a truthy `resolvers` field, else the default export itself when it is
of object type, else — only when the default export is falsy — the
top-level `resolvers` export; a `null` outcome degrades to an empty
contribution with a diagnostic (the Boolean of the pair). -/
def fileDescriptorResolvers (exported : Value) : Value × Bool :=
  let resolvers :=
    if jsTruthy (jsProp exported "default") then
      if jsTruthy (jsProp (jsProp exported "default") "resolvers") then
        jsProp (jsProp exported "default") "resolvers"
      else if typeofObject (jsProp exported "default") then jsProp exported "default"
      else vNull
    else if jsTruthy (jsProp exported "resolvers") then jsProp exported "resolvers"
    else vNull
  if !(jsTruthy resolvers) then (vObj [], true) else (resolvers, false)

/-- Modelled from the spec: the spec's own description of the file-export
search, "searched in order: `exported.default.resolvers`,
`exported.default` if it is a plain object, `exported.resolvers`", each
step tried when the previous ones fail; kept beside
`fileDescriptorResolvers` to compare the spec's words with the source. -/
def specFileResolversSearch (exported : Value) : Value × Bool :=
  if jsTruthy (jsProp (jsProp exported "default") "resolvers") then
    (jsProp (jsProp exported "default") "resolvers", false)
  else if jsTruthy (jsProp exported "default") &&
      typeofObject (jsProp exported "default") then
    (jsProp exported "default", false)
  else if jsTruthy (jsProp exported "resolvers") then
    (jsProp exported "resolvers", false)
  else (vObj [], true)

/-- A declarative additional-resolver descriptor: a file path, a
subscription descriptor (discriminated by `pubsubTopic`), or a method-call
descriptor. -/
inductive ARDescriptor where
  | file (path : String) : ARDescriptor
  | subscription (d : SubscriptionDescriptor) : ARDescriptor
  | methodCall (d : MethodCallDescriptor) : ARDescriptor

/-- The per-descriptor contribution of `resolveAdditionalResolvers`
(utils.ts lines 88-167): a file descriptor loads the module at
`resolve(baseDir, filePath)` (a failing load is fatal) and probes its
exports; a subscription descriptor contributes its synthesized entry at
`[type][field]`; a method-call descriptor contributes
`{ selectionSet: requiredSelectionSet, resolve: methodCallResolve }` at
`[type][field]`. -/
def descriptorContribution (eng : DelegationEngine) (interp : Interp)
    (resolvePath : String → String → String) (baseDir : String)
    (importFn : String → Except String Value) :
    ARDescriptor → Except String RMap
  | ARDescriptor.file p =>
    match importFn (resolvePath baseDir p) with
    | Except.error e => Except.error e
    | Except.ok exported =>
      Except.ok (valueToRMap (fileDescriptorResolvers exported).1)
  | ARDescriptor.subscription d =>
    Except.ok (singletonRMap d.type d.field
      (ResolverEntry.subscriptionField d
        (fun payload _args c i => resolveReturnData eng payload d.returnData c i none none)))
  | ARDescriptor.methodCall d =>
    Except.ok (singletonRMap d.type d.field
      (ResolverEntry.methodField d.requiredSelectionSet
        (fun root args c i => methodCallResolve eng interp d root args c i)))

/-- The `Promise.all` over the descriptor list: contributions in input
order, the first fatal load error aborting the whole compilation. -/
def contributionsOf (eng : DelegationEngine) (interp : Interp)
    (resolvePath : String → String → String) (baseDir : String)
    (importFn : String → Except String Value) :
    List ARDescriptor → Except String (List RMap)
  | [] => Except.ok []
  | d :: rest =>
    match descriptorContribution eng interp resolvePath baseDir importFn d with
    | Except.error e => Except.error e
    | Except.ok c =>
      match contributionsOf eng interp resolvePath baseDir importFn rest with
      | Except.error e => Except.error e
      | Except.ok cs => Except.ok (c :: cs)

/-- Modelled from the spec: `mergeResolvers` of `@graphql-tools/merge` is
an external dependency whose source is not part of this repository; the
spec specifies the produced surface as "merged via last-write-wins" at the
`[type][field]` key, so the merge is the left fold preferring the later
contribution's entry at each key. -/
def mergeResolversModel (l : List RMap) : RMap :=
  l.foldl
    (fun acc c => fun ty f =>
      match c ty f with
      | some e => some e
      | none => acc ty f)
    (fun _ _ => none)

/-- `resolveAdditionalResolvers` (utils.ts lines 77-172): gather every
descriptor's contribution, then merge them. -/
def resolveAdditionalResolvers (eng : DelegationEngine) (interp : Interp)
    (resolvePath : String → String → String) (baseDir : String)
    (importFn : String → Except String Value) (ds : List ARDescriptor) :
    Except String RMap :=
  match contributionsOf eng interp resolvePath baseDir importFn ds with
  | Except.error e => Except.error e
  | Except.ok cs => Except.ok (mergeResolversModel cs)

/-! Concrete fixtures used by witnesses and counterexamples. -/

/-- A delegation engine that tags nothing as external. -/
def engNone : DelegationEngine :=
  ⟨fun _ => false, fun _ => [], fun _ _ => "", fun v _ _ _ _ _ _ => v⟩

/-- A delegation engine tagging as external exactly the objects whose first
field is named `ext`. -/
def engTag : DelegationEngine :=
  ⟨fun v => match v with
    | vObj (("ext", _) :: _) => true
    | _ => false,
   fun _ => [vError "unpathed"],
   fun _ k => "sub-" ++ k,
   fun v _ sub _ _ _ _ => vObj [("resolved", v), ("sub", vStr sub)]⟩

/-- A context whose API clients return `undefined`. -/
def ctx0 : Ctx := ⟨fun _ _ _ _ => vUndefined⟩

/-- A field info with response key `k` and a named return type. -/
def info0 : Info := ⟨"k", GQLType.named "T"⟩

/-- A field info whose return type is a list type. -/
def infoL : Info := ⟨"k", GQLType.list (GQLType.named "T")⟩

/-- An interpolator returning `undefined` for every template. -/
def interp0 : Interp := fun _ _ => vUndefined

/-- A context whose API returns an `Error` instance for the argument
`"y"` and the string `"r"` for anything else. -/
def ctxE : Ctx :=
  ⟨fun _ _ ma _ =>
    match ma with
    | vStr s => if s == "y" then vError "bad" else vStr "r"
    | _ => vStr "r"⟩

/-! ## C7: extractor identity on Error sources and absent paths -/

/-- C7 (amended): with an `Error` source or no extraction path, the
extractor performs no path traversal and returns the source itself — unless
the source is a `GraphQLError` instance, in which case its `originalError`
is returned. -/
theorem resolveReturnData_identity (eng : DelegationEngine) (source : Value)
    (rd : Option String) (ctx : Ctx) (info : Info) (rt : Option GQLType)
    (stm : Option Bool)
    (h : isErrorInstance source = true ∨ truthyPath rd = false) :
    resolveReturnData eng source rd ctx info rt stm =
      if isGraphQLErrorB source then originalErrorOf source else source := by
  rcases h with h | h <;>
    · simp only [resolveReturnData, h, Bool.true_or, Bool.or_true, Bool.not_false,
        Bool.not_true, Bool.false_or, Bool.or_false, if_true, ite_true]
      cases hg : isGraphQLErrorB source <;>
        simp [hg, Bool.or_not_self]

/-- Witness for C7: a plain `Error` source with no path is returned
unchanged. -/
theorem resolveReturnData_identity_witness :
    resolveReturnData engNone (vError "e") none ctx0 info0 none none =
      vError "e" := by
  simpa using
    resolveReturnData_identity engNone (vError "e") none ctx0 info0 none none
      (Or.inl rfl)

/-- Counterexample for C7 as frozen: a `GraphQLError` source (an `Error`
instance) with no extraction path is not returned as-is; its
`originalError` is returned instead. -/
theorem resolveReturnData_source_graphqlError_cex :
    resolveReturnData engNone (vGraphQLError (vError "orig") "m") none ctx0
        info0 none none = vError "orig" ∧
    isErrorInstance (vGraphQLError (vError "orig") "m") = true ∧
    (vError "orig" = vGraphQLError (vError "orig") "m" → False) :=
  ⟨rfl, rfl, fun h => nomatch h⟩

/-! ## C1: extractor behaviour with a source that is not an Error and a
given path -/

/-- C1 (amended): with a non-`Error` source and a given extraction path,
provided the extracted value is not a `GraphQLError` wrapper (which the
source unwraps to its `originalError` first): the extracted value is
returned as-is when it is tagged external or the source is not; otherwise
it is re-resolved through `resolveExternalValue` with the source's unpathed
errors, the sub-schema located for the response key from the field info,
the context, the info, and the forwarded expected output type and
skip-type-merging flag. -/
theorem resolveReturnData_delegated_extraction (eng : DelegationEngine)
    (source : Value) (rd : Option String) (ctx : Ctx) (info : Info)
    (rt : Option GQLType) (stm : Option Bool)
    (hsrc : isErrorInstance source = false) (hpath : truthyPath rd = true)
    (hge : isGraphQLErrorB (jsGetPath source (rd.getD "")) = false) :
    ((eng.isExternalObject (jsGetPath source (rd.getD "")) = true ∨
        eng.isExternalObject source = false) →
      resolveReturnData eng source rd ctx info rt stm =
        jsGetPath source (rd.getD "")) ∧
    (eng.isExternalObject (jsGetPath source (rd.getD "")) = false →
      eng.isExternalObject source = true →
      resolveReturnData eng source rd ctx info rt stm =
        eng.resolveExternalValue (jsGetPath source (rd.getD ""))
          (eng.getUnpathedErrors source)
          (eng.getSubschema source (getResponseKeyFromInfo info)) ctx info rt
          stm) := by
  constructor
  · intro h
    rcases h with h | h <;> simp [resolveReturnData, hsrc, hpath, hge, h]
  · intro h1 h2
    simp [resolveReturnData, hsrc, hpath, hge, h1, h2]

/-- Witness for C1: an external-tagged source whose extracted sub-value
lost the tag is re-resolved through `resolveExternalValue` with the
source's unpathed errors and the sub-schema for the response key. -/
theorem resolveReturnData_delegated_extraction_witness :
    resolveReturnData engTag
        (vObj [("ext", vBool true), ("a", vObj [("x", vStr "inner")])])
        (some "a") ctx0 info0 none none =
      engTag.resolveExternalValue
        (jsGetPath (vObj [("ext", vBool true), ("a", vObj [("x", vStr "inner")])])
          ((some "a").getD ""))
        (engTag.getUnpathedErrors
          (vObj [("ext", vBool true), ("a", vObj [("x", vStr "inner")])]))
        (engTag.getSubschema
          (vObj [("ext", vBool true), ("a", vObj [("x", vStr "inner")])])
          (getResponseKeyFromInfo info0)) ctx0 info0 none none :=
  (resolveReturnData_delegated_extraction engTag
      (vObj [("ext", vBool true), ("a", vObj [("x", vStr "inner")])])
      (some "a") ctx0 info0 none none rfl rfl rfl).2 rfl rfl

/-- Counterexample for C1 as frozen: a non-`Error`, non-external source
whose extracted value is a `GraphQLError` does not yield the extracted
value as-is — the wrapper's `originalError` is returned. -/
theorem resolveReturnData_graphqlError_unwrap_cex :
    resolveReturnData engNone
        (vObj [("a", vGraphQLError (vError "boom") "wrapped")]) (some "a")
        ctx0 info0 none none = vError "boom" ∧
    isErrorInstance (vObj [("a", vGraphQLError (vError "boom") "wrapped")]) =
      false ∧
    engNone.isExternalObject
        (vObj [("a", vGraphQLError (vError "boom") "wrapped")]) = false ∧
    jsGetPath (vObj [("a", vGraphQLError (vError "boom") "wrapped")]) "a" =
      vGraphQLError (vError "boom") "wrapped" ∧
    (vError "boom" = vGraphQLError (vError "boom") "wrapped" → False) :=
  ⟨rfl, rfl, rfl, rfl, fun h => nomatch h⟩

/-! ## C2: the candidate-module list -/

/-- C2: the candidate list is exactly the seven convention-based
identifiers built from the normalized name and category, then the raw name
exactly when the original name contains a dash, and finally the
absolute-path resolution of the name against the working directory, last. -/
theorem possibleModules_candidate_list (pc cwdResolve : String → String)
    (name ty : String) :
    possibleModules pc cwdResolve name ty =
      (["@graphql-mesh/" ++ pc name,
        "@graphql-mesh/" ++ pc name ++ "-" ++ pc ty,
        "@graphql-mesh/" ++ pc ty ++ "-" ++ pc name,
        pc name,
        pc name ++ "-" ++ pc ty,
        pc ty ++ "-" ++ pc name,
        pc ty] ++
        (if jsIncludes name "-" then [name] else []) ++
        [cwdResolve name]) ∧
    (possibleModules pc cwdResolve name ty).getLast? = some (cwdResolve name) := by
  constructor
  · unfold possibleModules
    cases h : jsIncludes name "-" <;> simp [h]
  · unfold possibleModules
    cases h : jsIncludes name "-" <;> simp [h, List.getLast?_append]

/-! ## C3, C6, C8: the candidate search loop -/

/-- Candidates that all fail with the module-not-found signal are skipped
and the search continues with the remaining candidates. -/
theorem getPackageGo_skip (importFn : String → Except String Value)
    (name ty : String) :
    ∀ (pre rest : List String), (∀ m ∈ pre, notFoundAt importFn m = true) →
      getPackageGo importFn name ty (pre ++ rest) =
        getPackageGo importFn name ty rest
  | [], _, _ => rfl
  | m :: pre, rest, h => by
    have hm := h m (List.mem_cons_self m pre)
    have ih := getPackageGo_skip importFn name ty pre rest
      (fun m' hm' => h m' (List.mem_cons_of_mem _ hm'))
    unfold notFoundAt at hm
    rw [List.cons_append]
    cases him : importFn m with
    | ok e => rw [him] at hm; exact absurd hm (by simp)
    | error msg =>
      rw [him] at hm
      simp at hm
      rw [getPackageGo, him]
      simpa [hm] using ih

/-- C3: candidates are attempted strictly in order; after a prefix of
module-not-found failures, a candidate the loader resolves ends the search
with its picked export, while any other loader failure at that candidate
aborts the whole search with the wrapped error naming the category and the
requested name. -/
theorem getPackage_search_order (importFn : String → Except String Value)
    (name ty : String) (pre : List String) (c : String) (rest : List String)
    (hpre : ∀ m ∈ pre, notFoundAt importFn m = true) :
    (∀ e, importFn c = Except.ok e →
      getPackageGo importFn name ty (pre ++ c :: rest) =
        Except.ok (pickExport e)) ∧
    (∀ msg, importFn c = Except.error msg → notFoundSignal c msg = false →
      getPackageGo importFn name ty (pre ++ c :: rest) =
        Except.error
          ("Unable to load " ++ ty ++ " matching " ++ name ++ ": " ++ msg)) := by
  constructor
  · intro e he
    rw [getPackageGo_skip importFn name ty pre (c :: rest) hpre,
      getPackageGo, he]
  · intro msg hmsg hnf
    rw [getPackageGo_skip importFn name ty pre (c :: rest) hpre,
      getPackageGo, hmsg]
    simp [hnf]

/-- A loader whose first convention candidate for `foo` fails fatally. -/
def loaderFatalFoo : String → Except String Value := fun m =>
  if m == "@graphql-mesh/foo" then Except.error "SyntaxError: bad"
  else Except.error ("Cannot find module " ++ squote ++ m ++ squote)

/-- A loader resolving only the candidate `b`. -/
def loaderOnlyB : String → Except String Value := fun m =>
  if m == "b" then Except.ok (vObj [("default", vStr "D")])
  else Except.error ("Cannot find module " ++ squote ++ m ++ squote)

/-- Witness for C3: with the candidate `a` failing as not-found, the search
returns the picked export of the next candidate `b`. -/
theorem getPackage_search_order_witness :
    getPackageGo loaderOnlyB "n" "t" (["a"] ++ "b" :: ["c"]) =
      Except.ok (pickExport (vObj [("default", vStr "D")])) :=
  (getPackage_search_order loaderOnlyB "n" "t" ["a"] "b" ["c"]
      (by intro m hm; simp at hm; subst hm; rfl)).1
    (vObj [("default", vStr "D")]) rfl

/-- Candidate exhaustion: when every candidate fails with the not-found
signal, the loop ends with the not-found error. -/
theorem getPackageGo_exhausted (importFn : String → Except String Value)
    (name ty : String) (ms : List String)
    (h : ∀ m ∈ ms, notFoundAt importFn m = true) :
    getPackageGo importFn name ty ms =
      Except.error ("Unable to find " ++ ty ++ " matching " ++ name) := by
  have := getPackageGo_skip importFn name ty ms [] h
  rw [List.append_nil] at this
  rw [this]
  rfl

/-- C8: when no candidate resolves (every loader attempt signals
module-not-found), `getPackage` fails with the not-found error naming the
category and the original requested name. -/
theorem getPackage_exhaustion (pc cwdResolve : String → String)
    (name ty : String) (importFn : String → Except String Value)
    (h : ∀ m ∈ possibleModules pc cwdResolve name ty,
      notFoundAt importFn m = true) :
    getPackage pc cwdResolve name ty importFn =
      Except.error ("Unable to find " ++ ty ++ " matching " ++ name) :=
  getPackageGo_exhausted importFn name ty _ h

/-- A loader that finds nothing. -/
def loaderNothing : String → Except String Value := fun m =>
  Except.error ("Cannot find module " ++ squote ++ m ++ squote)

/-- Witness for C8: a loader finding nothing yields the not-found error for
the `cache` category and the name `foo`. -/
theorem getPackage_exhaustion_witness :
    getPackage id (fun s => "/cwd/" ++ s) "foo" "cache" loaderNothing =
      Except.error "Unable to find cache matching foo" :=
  getPackage_exhaustion id (fun s => "/cwd/" ++ s) "foo" "cache" loaderNothing
    (by intro m hm; fin_cases hm <;> rfl)

/-- C6 (amended): for every successful candidate resolution — in every
category, cache, pubsub and merger included, since the fallback lives in
the shared `getPackage` routine — the returned value is the module's
truthy `default` export, else its truthy `parser` export, else the raw
exported value. -/
theorem getPackage_export_fallback (importFn : String → Except String Value)
    (name ty : String) (pre : List String) (c : String) (rest : List String)
    (hpre : ∀ m ∈ pre, notFoundAt importFn m = true) (e : Value)
    (he : importFn c = Except.ok e) :
    getPackageGo importFn name ty (pre ++ c :: rest) =
      Except.ok (jsOr (jsProp e "default") (jsOr (jsProp e "parser") e)) := by
  rw [getPackageGo_skip importFn name ty pre (c :: rest) hpre, getPackageGo, he]
  exact rfl

/-- A loader whose only resolvable module exports just a `parser` symbol. -/
def loaderParserOnly : String → Except String Value := fun m =>
  if m == "@graphql-mesh/foo" then Except.ok (vObj [("parser", vStr "P")])
  else Except.error ("Cannot find module " ++ squote ++ m ++ squote)

/-- Witness for C6 (amended): a parser-only module resolved under the
`cache` category returns the `parser` export. -/
theorem getPackage_export_fallback_witness :
    getPackageGo loaderParserOnly "foo" "cache"
        ([] ++ "@graphql-mesh/foo" :: []) = Except.ok (vStr "P") :=
  getPackage_export_fallback loaderParserOnly "foo" "cache" []
    "@graphql-mesh/foo" [] (by intro m hm; exact absurd hm (List.not_mem_nil m))
    (vObj [("parser", vStr "P")]) rfl

/-- Counterexample for C6 as frozen: resolving under the `cache`
specialization (not the handler one) still uses the `parser` named export
as the fallback between the default export and the raw exports — the raw
exported object is not returned. -/
theorem getPackage_parser_fallback_cache_cex :
    getPackage id (fun s => "/cwd/" ++ s) "foo" "cache" loaderParserOnly =
      Except.ok (vStr "P") ∧
    jsTruthy (jsProp (vObj [("parser", vStr "P")]) "default") = false ∧
    (vStr "P" = vObj [("parser", vStr "P")] → False) :=
  ⟨rfl, rfl, fun h => nomatch h⟩

/-! ## C4 and C10: the synthesized method-call resolver -/

/-- `castArray` of a non-array wraps it into a one-element array. -/
theorem castArray_of_not_array (v : Value) (h : isArrayV v = false) :
    castArray v = [v] := by
  cases v <;> simp_all [castArray, isArrayV]

/-- C4: with an array-valued interpolated argument, the resolver issues one
backend call per element and returns an array matching the input array in
length and order; an element whose backend result is an `Error` instance
yields `null` at its position, and every other element yields its own
extracted result, siblings unaffected. -/
theorem methodCallResolve_fanOut (eng : DelegationEngine) (interp : Interp)
    (d : MethodCallDescriptor) (root args : Value) (ctx : Ctx) (info : Info)
    (xs : List Value)
    (h : normalizeMethodArgs interp d.args ⟨root, args, ctx, info⟩ = vArr xs) :
    methodCallResolve eng interp d root args ctx info =
      vArr (xs.map (perElementCall eng d ctx info
        (ofTypeJS (getNullableType info.returnType)))) ∧
    (xs.map (perElementCall eng d ctx info
      (ofTypeJS (getNullableType info.returnType)))).length = xs.length ∧
    (∀ i (hi : i < xs.length),
      isErrorInstance (apiCall d ctx (xs.get ⟨i, hi⟩)) = true →
      (xs.map (perElementCall eng d ctx info
        (ofTypeJS (getNullableType info.returnType)))).get
          ⟨i, by rw [List.length_map]; exact hi⟩ = vNull) ∧
    (∀ i (hi : i < xs.length),
      isErrorInstance (apiCall d ctx (xs.get ⟨i, hi⟩)) = false →
      (xs.map (perElementCall eng d ctx info
        (ofTypeJS (getNullableType info.returnType)))).get
          ⟨i, by rw [List.length_map]; exact hi⟩ =
        resolveReturnData eng (apiCall d ctx (xs.get ⟨i, hi⟩)) d.returnData
          ctx info (ofTypeJS (getNullableType info.returnType)) none) := by
  refine ⟨?_, List.length_map xs _, ?_, ?_⟩
  · simp [methodCallResolve, h, isArrayV, castArray]
  · intro i hi herr
    simp only [List.get_eq_getElem] at herr ⊢
    simp only [List.getElem_map]
    simp [perElementCall, herr]
  · intro i hi herr
    simp only [List.get_eq_getElem] at herr ⊢
    simp only [List.getElem_map]
    simp [perElementCall, herr]

/-- A method-call descriptor whose argument function produces the array
`["x", "y"]`. -/
def descFanOut : MethodCallDescriptor :=
  ⟨"Query", "a", "src", "m",
    ArgsConfig.fn (fun _ => vArr [vStr "x", vStr "y"]),
    none, none, none, none, none⟩

/-- Witness for C4: the two-element fan-out against the erroring backend
returns the per-element results in order. -/
theorem methodCallResolve_fanOut_witness :
    methodCallResolve engNone interp0 descFanOut vNull vNull ctxE infoL =
      vArr ([vStr "x", vStr "y"].map (perElementCall engNone descFanOut ctxE
        infoL (ofTypeJS (getNullableType infoL.returnType)))) :=
  (methodCallResolve_fanOut engNone interp0 descFanOut vNull vNull ctxE infoL
      [vStr "x", vStr "y"] rfl).1

/-- C10: with a scalar (non-array) interpolated argument whose backend
result is an `Error` instance, the synthesized resolver returns `null` —
for every delegation engine, so the Error value never reaches the
return-data extractor's output. -/
theorem methodCallResolve_scalar_error_null (eng : DelegationEngine)
    (interp : Interp) (d : MethodCallDescriptor) (root args : Value)
    (ctx : Ctx) (info : Info)
    (h : isArrayV (normalizeMethodArgs interp d.args ⟨root, args, ctx, info⟩) =
      false)
    (herr : isErrorInstance (apiCall d ctx
      (normalizeMethodArgs interp d.args ⟨root, args, ctx, info⟩)) = true) :
    methodCallResolve eng interp d root args ctx info = vNull := by
  simp [methodCallResolve, castArray_of_not_array _ h, h, perElementCall, herr,
    headJS]

/-- A method-call descriptor whose argument function produces the scalar
`"y"`, for which the backend returns an Error. -/
def descScalar : MethodCallDescriptor :=
  ⟨"Query", "a", "src", "m", ArgsConfig.fn (fun _ => vStr "y"),
    none, none, none, none, none⟩

/-- Witness for C10: the scalar call whose backend result is an Error
resolves to `null`. -/
theorem methodCallResolve_scalar_error_null_witness :
    methodCallResolve engNone interp0 descScalar vNull vNull ctxE info0 =
      vNull :=
  methodCallResolve_scalar_error_null engNone interp0 descScalar vNull vNull
    ctxE info0 rfl rfl

/-! ## C9: file-descriptor export probing -/

/-- C9 (amended): for a successfully loaded string descriptor, the
contribution is the default export's truthy `resolvers` field; else the
default export itself when it is of object type; the top-level `resolvers`
export is consulted only when the default export is falsy; a truthy default
export that yields neither of the first two, or a falsy default with a
falsy top-level `resolvers`, degrades to an empty contribution with a
non-fatal diagnostic. -/
theorem fileDescriptorResolvers_probe_order (exported : Value) :
    (jsTruthy (jsProp exported "default") = true →
      jsTruthy (jsProp (jsProp exported "default") "resolvers") = true →
      fileDescriptorResolvers exported =
        (jsProp (jsProp exported "default") "resolvers", false)) ∧
    (jsTruthy (jsProp exported "default") = true →
      jsTruthy (jsProp (jsProp exported "default") "resolvers") = false →
      typeofObject (jsProp exported "default") = true →
      fileDescriptorResolvers exported = (jsProp exported "default", false)) ∧
    (jsTruthy (jsProp exported "default") = false →
      jsTruthy (jsProp exported "resolvers") = true →
      fileDescriptorResolvers exported = (jsProp exported "resolvers", false)) ∧
    (jsTruthy (jsProp exported "default") = true →
      jsTruthy (jsProp (jsProp exported "default") "resolvers") = false →
      typeofObject (jsProp exported "default") = false →
      fileDescriptorResolvers exported = (vObj [], true)) ∧
    (jsTruthy (jsProp exported "default") = false →
      jsTruthy (jsProp exported "resolvers") = false →
      fileDescriptorResolvers exported = (vObj [], true)) := by
  refine ⟨?_, ?_, ?_, ?_, ?_⟩
  · intro h1 h2
    simp [fileDescriptorResolvers, h1, h2]
  · intro h1 h2 h3
    simp [fileDescriptorResolvers, h1, h2, h3]
  · intro h1 h2
    simp [fileDescriptorResolvers, h1, h2]
  · intro h1 h2 h3
    simp [fileDescriptorResolvers, h1, h2, h3,
      show jsTruthy vNull = false from rfl]
  · intro h1 h2
    simp [fileDescriptorResolvers, h1, h2,
      show jsTruthy vNull = false from rfl]

/-- A module exporting only a top-level `resolvers` object. -/
def exportsTopLevel : Value := vObj [("resolvers", vObj [("Query", vObj [])])]

/-- Witness for C9 (amended): with no default export, the top-level
`resolvers` export is the contribution and no diagnostic is emitted. -/
theorem fileDescriptorResolvers_probe_order_witness :
    fileDescriptorResolvers exportsTopLevel =
      (jsProp exportsTopLevel "resolvers", false) :=
  (fileDescriptorResolvers_probe_order exportsTopLevel).2.2.1 rfl rfl

/-- A module whose truthy non-object default export coexists with a
top-level `resolvers` export. -/
def exportsBlocked : Value :=
  vObj [("default", vStr "nope"), ("resolvers", vObj [("Query", vObj [])])]

/-- Counterexample for C9 as frozen: a truthy non-object default export
short-circuits the search, so the top-level `resolvers` export — which the
claimed three-step order would find — is ignored and the descriptor
degrades to an empty contribution with a diagnostic. -/
theorem fileDescriptorResolvers_blocked_cex :
    fileDescriptorResolvers exportsBlocked = (vObj [], true) ∧
    specFileResolversSearch exportsBlocked =
      (vObj [("Query", vObj [])], false) ∧
    jsTruthy (jsProp exportsBlocked "resolvers") = true ∧
    (((vObj [] : Value), true) = ((vObj [("Query", vObj [])] : Value), false) →
      False) :=
  ⟨rfl, rfl, rfl, fun h => nomatch congrArg Prod.snd h⟩

/-! ## C5: last-write-wins merging of descriptor contributions -/

/-- Contributions of an appended descriptor list: the two sublists'
contributions in order, the first fatal error aborting. -/
theorem contributionsOf_append (eng : DelegationEngine) (interp : Interp)
    (rp : String → String → String) (bd : String)
    (imf : String → Except String Value) :
    ∀ (l1 l2 : List ARDescriptor),
      contributionsOf eng interp rp bd imf (l1 ++ l2) =
        match contributionsOf eng interp rp bd imf l1 with
        | Except.error e => Except.error e
        | Except.ok cs1 =>
          match contributionsOf eng interp rp bd imf l2 with
          | Except.error e => Except.error e
          | Except.ok cs2 => Except.ok (cs1 ++ cs2)
  | [], l2 => by
    cases h : contributionsOf eng interp rp bd imf l2 <;>
      simp [contributionsOf, h]
  | d :: l1, l2 => by
    have ih := contributionsOf_append eng interp rp bd imf l1 l2
    rw [List.cons_append]
    cases hd : descriptorContribution eng interp rp bd imf d <;>
      cases h1 : contributionsOf eng interp rp bd imf l1 <;>
        cases h2 : contributionsOf eng interp rp bd imf l2 <;>
          rw [h1, h2] at ih <;>
            simp [contributionsOf, hd, h1, h2, ih]

/-- Lookup in the merge of a list extended by two maps: the last map's
entry wins, then the second-to-last's, then the rest. -/
theorem mergeResolversModel_append2 (l : List RMap) (x y : RMap)
    (ty f : String) :
    mergeResolversModel (l ++ [x, y]) ty f =
      match y ty f with
      | some e => some e
      | none =>
        match x ty f with
        | some e => some e
        | none => mergeResolversModel l ty f := by
  unfold mergeResolversModel
  rw [List.foldl_append]
  rfl

/-- C5: when two method-call descriptors target the same `[type][field]`
key, the entry compiled from the descriptor appearing later in the input
list is the one present in the merged resolver map, replacing the earlier
descriptor's entry wholesale. -/
theorem resolveAdditionalResolvers_last_write_wins (eng : DelegationEngine)
    (interp : Interp) (rp : String → String → String) (bd : String)
    (imf : String → Except String Value) (pre : List ARDescriptor)
    (d1 d2 : MethodCallDescriptor) (hty : d1.type = d2.type)
    (hf : d1.field = d2.field) (m : RMap)
    (h : resolveAdditionalResolvers eng interp rp bd imf
      (pre ++ [ARDescriptor.methodCall d1, ARDescriptor.methodCall d2]) =
        Except.ok m) :
    rmapLookup m d2.type d2.field =
      some (ResolverEntry.methodField d2.requiredSelectionSet
        (fun root args c i => methodCallResolve eng interp d2 root args c i)) := by
  unfold resolveAdditionalResolvers at h
  rw [contributionsOf_append] at h
  cases hpre : contributionsOf eng interp rp bd imf pre with
  | error e => rw [hpre] at h; exact absurd h (by simp)
  | ok cs =>
    rw [hpre] at h
    simp only [contributionsOf, descriptorContribution, Except.ok.injEq] at h
    subst h
    rw [rmapLookup, mergeResolversModel_append2]
    simp [singletonRMap]

/-- First of two conflicting method-call descriptors at `Query.a`. -/
def descQ1 : MethodCallDescriptor :=
  ⟨"Query", "a", "s1", "m1", ArgsConfig.fn (fun _ => vNull), none, none, none,
    none, some "ss1"⟩

/-- Second of two conflicting method-call descriptors at `Query.a`. -/
def descQ2 : MethodCallDescriptor :=
  ⟨"Query", "a", "s2", "m2", ArgsConfig.fn (fun _ => vNull), none, none, none,
    none, some "ss2"⟩

/-- A path resolver joining with a slash. -/
def joinPath : String → String → String := fun a b => a ++ "/" ++ b

/-- The merged resolver map compiled from the two conflicting
descriptors. -/
def mergedW : RMap :=
  mergeResolversModel
    [singletonRMap "Query" "a"
      (ResolverEntry.methodField descQ1.requiredSelectionSet
        (fun root args c i => methodCallResolve engNone interp0 descQ1 root args c i)),
     singletonRMap "Query" "a"
      (ResolverEntry.methodField descQ2.requiredSelectionSet
        (fun root args c i => methodCallResolve engNone interp0 descQ2 root args c i))]

/-- Witness for C5: compiling `[descQ1, descQ2]` in order leaves exactly
`descQ2`'s entry at `Query.a`. -/
theorem resolveAdditionalResolvers_last_write_wins_witness :
    rmapLookup mergedW "Query" "a" =
      some (ResolverEntry.methodField descQ2.requiredSelectionSet
        (fun root args c i =>
          methodCallResolve engNone interp0 descQ2 root args c i)) :=
  resolveAdditionalResolvers_last_write_wins engNone interp0 joinPath ""
    loaderNothing [] descQ1 descQ2 rfl rfl mergedW rfl

end Mesh
